import Mathlib

/-!
Shallow embedding of the KOMA audio-analysis service (src/main.py,
src/Music_Anaylizer.py, src/bpm_detection.py, src/key_detection.py).

Bytes are modelled as natural numbers (taken mod 256 where their byte value
matters), float samples as exact rationals, and the external DSP libraries
(librosa's beat tracker, essentia's key extractor, soundfile's reader) as
universally quantified functions that may raise: every theorem below holds for
every behaviour of those libraries.
-/

/-- Python exception values observed at the boundaries we model. -/
inductive PyErr where
  | valueError (msg : String)
  | typeError (msg : String)
  deriving DecidableEq, Repr

/-- A string message of an exception, as str(e) renders it. -/
def PyErr.message : PyErr → String
  | PyErr.valueError m => m
  | PyErr.typeError m => m

/-- A dynamically typed Python value at a formatting boundary: either an
already-rendered str or a number. -/
inductive PyVal where
  | str (s : String)
  | num (q : ℚ)
  deriving DecidableEq, Repr

/-- A positional argument at a Python call site: an audio array or an integer
(the sample rate). -/
inductive PyArg where
  | audio (a : List ℚ)
  | nat (n : Nat)
  deriving DecidableEq, Repr

/-- Fixed-point decimal rendering, modelling Python str.format with a ".Nf"
spec on a number (ties at exact decimal midpoints may round differently from
Python's half-to-even; no claim depends on a midpoint tie). -/
def formatFixed (q : ℚ) (prec : Nat) : String :=
  let n : ℤ := round (q * (10 : ℚ) ^ prec)
  let sign := if n < 0 then "-" else ""
  let m := n.natAbs
  let ip := m / 10 ^ prec
  let fp := m % 10 ^ prec
  if prec = 0 then sign ++ toString ip
  else
    let fs := toString fp
    sign ++ toString ip ++ "." ++ String.mk (List.replicate (prec - fs.length) '0') ++ fs

/-- Applying the format spec ".1f" of the f-string in src/main.py line 89 to a
value: defined on numbers, but Python raises ValueError when the value is a
str (Unknown format code f). -/
def pyFormatF1 : PyVal → Except PyErr String
  | PyVal.num q => Except.ok (formatFixed q 1)
  | PyVal.str _ =>
      Except.error (PyErr.valueError "Unknown format code 'f' for object of type 'str'")

/-- Reassemble one signed 16-bit little-endian sample from two bytes
(np.frombuffer with dtype int16). -/
def int16OfBytes (lo hi : Nat) : Int :=
  if lo % 256 + 256 * (hi % 256) < 32768 then ((lo % 256 + 256 * (hi % 256) : Nat) : Int)
  else ((lo % 256 + 256 * (hi % 256) : Nat) : Int) - 65536

/-- The int16 samples of a byte string, as consecutive little-endian pairs
(np.frombuffer(pcm_bytes, dtype=np.int16)); the caller rejects odd lengths. -/
def pcmInts : List Nat → List Int
  | [] => []
  | [_] => []
  | lo :: hi :: rest => int16OfBytes lo hi :: pcmInts rest

/-- Normalised samples: each int16 divided by 32768.0
(audio.astype(np.float32) / 32768.0), modelled exactly in ℚ. -/
def pcmSamples (pcm_bytes : List Nat) : List ℚ :=
  (pcmInts pcm_bytes).map (fun (i : Int) => (i : ℚ) / 32768)

/-- Shape of the numpy array decode_pcm returns: flat mono (reshape(-1)) or one
row per frame of interleaved channels (reshape((-1, channels))). -/
inductive NDArray where
  | flat (samples : List ℚ)
  | frames (channels : Nat) (rows : List (List ℚ))
  deriving DecidableEq, Repr

/-- Rows of length c, mirroring numpy reshape((-1, channels)); only reached
with 2 ≤ c (the channels > 1 branch of decode_pcm). -/
def chunkRows (c : Nat) : List ℚ → List (List ℚ)
  | [] => []
  | x :: xs => (x :: xs).take c :: chunkRows c (xs.drop (c - 1))
  termination_by l => l.length
  decreasing_by simp [List.length_drop]; omega

/-- The flat sample view of a decoded array (y itself for channels = 1, the
only shape the streaming path produces). -/
def NDArray.flatSamples : NDArray → List ℚ
  | NDArray.flat s => s
  | NDArray.frames _ rows => rows.flatten

/-- Embedding of decode_pcm (src/main.py lines 23-42): reject an empty buffer;
reinterpret the bytes as little-endian int16 (np.frombuffer raises on a length
that is not a multiple of 2, re-raised by the except clause as ValueError);
reject an empty sample array; reshape by channel count (the isinstance check
on the result always passes and is not represented); scale by 1/32768; return
the array together with the passed-through sample rate. -/
def decode_pcm (pcm_bytes : List Nat) (sample_rate : Nat) (channels : Nat) :
    Except PyErr (NDArray × Nat) :=
  if pcm_bytes.length = 0 then
    Except.error (PyErr.valueError "Empty audio buffer")
  else if pcm_bytes.length % 2 ≠ 0 then
    Except.error (PyErr.valueError "Failed to convert buffer: buffer size must be a multiple of element size")
  else if (pcmInts pcm_bytes).length = 0 then
    Except.error (PyErr.valueError "Failed to convert buffer: Decoded audio buffer is empty")
  else if 1 < channels then
    if (pcmInts pcm_bytes).length % channels ≠ 0 then
      Except.error (PyErr.valueError "cannot reshape array")
    else
      Except.ok (NDArray.frames channels (chunkRows channels (pcmSamples pcm_bytes)), sample_rate)
  else
    Except.ok (NDArray.flat (pcmSamples pcm_bytes), sample_rate)

/-- Abstract tempo estimation: librosa.beat.beat_track composed with the
scalar extraction from detect_BPM's return value, left universally
quantified (an external library, not repository code). -/
abbrev TempoEstimator : Type := List ℚ → Nat → Except PyErr ℚ

/-- Abstract key extraction: essentia.standard.KeyExtractor applied to the
audio, returning (key, scale, strength), left universally quantified (an
external library, not repository code). -/
abbrev KeyExtractor : Type := List ℚ → Except PyErr (String × String × ℚ)

/-- BPM.detect_BPM (src/bpm_detection.py lines 53-81): delegate to the tempo
estimator at the given sample rate. -/
def detect_BPM (bt : TempoEstimator) (audio : List ℚ) (sample_rate : Nat) : Except PyErr ℚ :=
  bt audio sample_rate

/-- Body of Music_Anaylizer.find_bpm (src/Music_Anaylizer.py lines 14-19):
detect_BPM(audio, 44100) with the literal sample rate 44100, keep the scalar,
format with "{:.3f}". -/
def find_bpm_body (bt : TempoEstimator) (audio : List ℚ) : Except PyErr String :=
  match detect_BPM bt audio 44100 with
  | Except.error e => Except.error e
  | Except.ok t => Except.ok (formatFixed t 3)

/-- The message of the TypeError the interpreter raises when a one-parameter
function is called with a different number of positional arguments. -/
def arityMsg (fname : String) (n : Nat) : String :=
  s!"{fname} takes 1 positional argument but {n} were given"

/-- Calling Music_Anaylizer.find_bpm with a list of positional arguments: the
def has exactly one parameter, so any other arity raises TypeError before the
body runs. -/
def find_bpm_call (bt : TempoEstimator) (args : List PyArg) : Except PyErr String :=
  match args with
  | [PyArg.audio a] => find_bpm_body bt a
  | _ => Except.error (PyErr.typeError (arityMsg "find_bpm()" args.length))

/-- Body of Music_Anaylizer.find_keysig (src/Music_Anaylizer.py lines 21-28):
run the key extractor, multiply strength by 100 and pre-format it with
"{:.2f}%": the strength component of the returned triple is a str. -/
def find_keysig_body (kx : KeyExtractor) (audio : List ℚ) :
    Except PyErr (String × String × PyVal) :=
  match kx audio with
  | Except.error e => Except.error e
  | Except.ok (key, scale, strength) =>
      Except.ok (key, scale, PyVal.str (formatFixed (strength * 100) 2 ++ "%"))

/-- Calling Music_Anaylizer.find_keysig with positional arguments: one
parameter, so any other arity raises TypeError. -/
def find_keysig_call (kx : KeyExtractor) (args : List PyArg) :
    Except PyErr (String × String × PyVal) :=
  match args with
  | [PyArg.audio a] => find_keysig_body kx a
  | _ => Except.error (PyErr.typeError (arityMsg "find_keysig()" args.length))

/-- BPM of source material that has a given native sample rate, through the
streaming helper: the call site find_bpm(y) passes only the audio, so the
material's sample rate does not enter. -/
def bpmOfMaterial (bt : TempoEstimator) (audio : List ℚ) (sourceSampleRate : Nat) :
    Except PyErr String :=
  find_bpm_call bt [PyArg.audio audio]

/-- One JSON object sent over the websocket (a send_json payload); a key the
payload does not carry is none. -/
structure Sent where
  bpm : Option String
  key : Option String
  strength : Option String
  status : String
  deriving DecidableEq, Repr

/-- The terminal payload sent on a stop command (src/main.py lines 110-112). -/
def stoppedSent : Sent := ⟨none, none, none, "Stopped"⟩

/-- The payload sent when window processing raised (src/main.py lines 98-103). -/
def analysisErrorSent : Sent := ⟨some "Unknown", some "Unknown", none, "Error"⟩

/-- The success payload of the streaming path (src/main.py lines 85-91). -/
def detectedSent (bpm key strength : String) : Sent :=
  ⟨some bpm, some key, some strength, "Detected"⟩

/-- Window constants of the websocket session (src/main.py lines 64-68). -/
def SAMPLE_RATE : Nat := 44100

def CHANNELS : Nat := 1

def SECONDS : Nat := 5

def BYTES_PER_SAMPLE : Nat := 2

def TARGET_SIZE : Nat := SAMPLE_RATE * CHANNELS * BYTES_PER_SAMPLE * SECONDS

/-- The analysis attempt on one full window (src/main.py lines 79-94): decode,
check the array is non-empty, run find_bpm(y) and find_keysig(y), join key and
scale, apply ".1f" to the strength and append a percent sign, and build the
Detected payload. Returns the payload or the first exception raised. -/
def streamAnalysis (bt : TempoEstimator) (kx : KeyExtractor) (window : List Nat) :
    Except PyErr Sent :=
  match decode_pcm window SAMPLE_RATE CHANNELS with
  | Except.error e => Except.error e
  | Except.ok (y, _sr) =>
      if (NDArray.flatSamples y).length = 0 then
        Except.error (PyErr.valueError "Received empty audio array")
      else
        match find_bpm_call bt [PyArg.audio (NDArray.flatSamples y)] with
        | Except.error e => Except.error e
        | Except.ok bpm =>
            match find_keysig_call kx [PyArg.audio (NDArray.flatSamples y)] with
            | Except.error e => Except.error e
            | Except.ok (key, scale, strength) =>
                match pyFormatF1 strength with
                | Except.error e => Except.error e
                | Except.ok s1 => Except.ok (detectedSent bpm (key ++ scale) (s1 ++ "%"))

/-- What the session actually sends for one completed window: the try/except
of src/main.py lines 79-103 — the Detected payload on success, the fixed Error
payload when anything in the window processing raised. -/
def windowSend (bt : TempoEstimator) (kx : KeyExtractor) (w : List Nat) : Sent :=
  match streamAnalysis bt kx w with
  | Except.ok sent => sent
  | Except.error _ => analysisErrorSent

/-- Python str.strip(): remove whitespace from both ends (modelled on the
character list of the string). -/
def pyStrip (cs : List Char) : List Char :=
  ((cs.dropWhile Char.isWhitespace).reverse.dropWhile Char.isWhitespace).reverse

/-- Python str.lower(): lowercase every character. -/
def pyLower (cs : List Char) : List Char :=
  cs.map Char.toLower

/-- One websocket message from the client: a binary audio chunk or a text
frame. -/
inductive ClientMsg where
  | binary (data : List Nat)
  | text (s : String)
  deriving DecidableEq, Repr

/-- The window accumulator step (src/main.py lines 73-78 with the clear on
lines 104-105): extend the buffer with the chunk; once the length reaches or
passes TARGET_SIZE, hand out the first TARGET_SIZE bytes and clear the buffer
entirely (bytes past the target are discarded); below target keep
accumulating. -/
def ingest (buf chunk : List Nat) : List Nat × Option (List Nat) :=
  let b := buf ++ chunk
  if TARGET_SIZE ≤ b.length then ([], some (b.take TARGET_SIZE)) else (b, none)

/-- Feed a chunk sequence through the accumulator from a starting buffer,
collecting every emitted window; returns (final buffer, windows). -/
def feedAll : List Nat → List (List Nat) → List Nat × List (List Nat)
  | buf, [] => (buf, [])
  | buf, c :: cs =>
      match ingest buf c with
      | (buf2, none) => feedAll buf2 cs
      | (buf2, some w) =>
          match feedAll buf2 cs with
          | (bufF, ws) => (bufF, w :: ws)

/-- One iteration of the websocket_audio loop on one received message: a binary
chunk goes through the accumulator and a completed window is analysed, with an
analysis exception caught and converted into the Error payload (the buffer is
cleared either way); a text message whose strip().lower() equals "stop" sends
Stopped and ends the loop; any other text is ignored. Returns (new buffer,
payloads sent, loop ended). -/
def stepMsg (bt : TempoEstimator) (kx : KeyExtractor) (buf : List Nat) (m : ClientMsg) :
    List Nat × List Sent × Bool :=
  match m with
  | ClientMsg.binary data =>
      match ingest buf data with
      | (buf2, none) => (buf2, [], false)
      | (buf2, some w) => (buf2, [windowSend bt kx w], false)
  | ClientMsg.text s =>
      if pyLower (pyStrip s.data) = "stop".data then (buf, [stoppedSent], true)
      else (buf, [], false)

/-- The websocket receive loop from a given buffer over a message sequence:
returns the payloads sent and the final buffer. A stop ends the loop and the
remaining messages are never received. -/
def runLoop (bt : TempoEstimator) (kx : KeyExtractor) :
    List Nat → List ClientMsg → List Sent × List Nat
  | buf, [] => ([], buf)
  | buf, m :: rest =>
      match stepMsg bt kx buf m with
      | (buf2, out, true) => (out, buf2)
      | (buf2, out, false) =>
          match runLoop bt kx buf2 rest with
          | (outs, bufF) => (out ++ outs, bufF)

/-- A whole websocket_audio session: accept, run the loop from an empty buffer,
then the finally block closes the connection with code 1000 (an error while
closing is swallowed). Returns the payloads sent and the close code. -/
def runSession (bt : TempoEstimator) (kx : KeyExtractor) (msgs : List ClientMsg) :
    List Sent × Nat :=
  ((runLoop bt kx [] msgs).1, 1000)

/-- The pre-shared secret (src/main.py line 15). -/
def API_KEY : String := "your-secret-key"

/-- verify_api_key (src/main.py lines 17-20): read the x-api-key header (none
when absent) and raise HTTPException 403 when it differs from the secret. -/
def verify_api_key (key : Option String) : Except Nat Unit :=
  if key ≠ some API_KEY then Except.error 403 else Except.ok ()

/-- Abstract soundfile.read of the uploaded bytes: an external library, returns
(audio, native sample rate) or raises; left universally quantified. -/
abbrev SfRead : Type := List Nat → Except PyErr (List ℚ × Nat)

/-- HTTP-level outcomes of the one-shot endpoint: the success dict, the 500
JSONResponse {"error": str(e)}, or the HTTPException of the dependency. -/
inductive Response where
  | okJson (bpm : String) (key : String × String × PyVal) (status : String)
  | jsonError (statusCode : Nat) (error : String)
  | httpException (statusCode : Nat) (detail : String)
  deriving DecidableEq, Repr

/-- The try-block of analyze_audio (src/main.py lines 46-52): read the upload,
decode it via soundfile, call find_bpm(y, sr) and find_keysig(y, sr) — both
with two positional arguments — and build the success dict. -/
def analyzeBody (bt : TempoEstimator) (kx : KeyExtractor) (sfRead : SfRead)
    (fileBytes : List Nat) : Except PyErr Response :=
  match sfRead fileBytes with
  | Except.error e => Except.error e
  | Except.ok (y, sr) =>
      match find_bpm_call bt [PyArg.audio y, PyArg.nat sr] with
      | Except.error e => Except.error e
      | Except.ok bpm =>
          match find_keysig_call kx [PyArg.audio y, PyArg.nat sr] with
          | Except.error e => Except.error e
          | Except.ok key => Except.ok (Response.okJson bpm key "Detected")

/-- The analyze_audio endpoint (src/main.py lines 44-54): FastAPI resolves the
verify_api_key dependency before the handler body runs, so a 403 precedes any
read of the upload; the handler converts any exception of its body into a 500
JSONResponse {"error": str(e)}. The Bool records whether the uploaded file was
read. -/
def analyze_audio (bt : TempoEstimator) (kx : KeyExtractor) (sfRead : SfRead)
    (apiKey : Option String) (fileBytes : List Nat) : Response × Bool :=
  match verify_api_key apiKey with
  | Except.error code => (Response.httpException code "Unauthorized", false)
  | Except.ok _ =>
      match analyzeBody bt kx sfRead fileBytes with
      | Except.ok r => (r, true)
      | Except.error e => (Response.jsonError 500 (PyErr.message e), true)

/-! Basic facts about the decoder. -/

theorem TARGET_SIZE_eq : TARGET_SIZE = 441000 := rfl

theorem pcmInts_length : ∀ l : List Nat, (pcmInts l).length = l.length / 2
  | [] => by simp [pcmInts]
  | [_] => by simp [pcmInts]
  | _ :: _ :: rest => by
      simp only [pcmInts, List.length_cons, pcmInts_length rest]
      omega

theorem int16OfBytes_bounds (lo hi : Nat) :
    -32768 ≤ int16OfBytes lo hi ∧ int16OfBytes lo hi ≤ 32767 := by
  unfold int16OfBytes
  have h1 : lo % 256 < 256 := Nat.mod_lt _ (by norm_num)
  have h2 : hi % 256 < 256 := Nat.mod_lt _ (by norm_num)
  split <;> omega

theorem pcmInts_bounds : ∀ l : List Nat, ∀ i ∈ pcmInts l, -32768 ≤ i ∧ i ≤ 32767
  | [] => by simp [pcmInts]
  | [_] => by simp [pcmInts]
  | a :: b :: rest => by
      intro i hmem
      simp only [pcmInts, List.mem_cons] at hmem
      rcases hmem with h | h
      · subst h; exact int16OfBytes_bounds a b
      · exact pcmInts_bounds rest i h

theorem pcmSamples_length (l : List Nat) : (pcmSamples l).length = l.length / 2 := by
  rw [pcmSamples, List.length_map, pcmInts_length]

theorem pcmSamples_bounds (l : List Nat) : ∀ q ∈ pcmSamples l, -1 ≤ q ∧ q < 1 := by
  intro q hq
  rw [pcmSamples, List.mem_map] at hq
  obtain ⟨i, hmem, rfl⟩ := hq
  have hb := pcmInts_bounds l i hmem
  constructor
  · have hc : ((-32768 : ℤ) : ℚ) ≤ (i : ℚ) := by exact_mod_cast hb.1
    rw [le_div_iff₀ (by norm_num : (0 : ℚ) < 32768)]
    push_cast at hc ⊢
    linarith
  · have hc : (i : ℚ) ≤ ((32767 : ℤ) : ℚ) := by exact_mod_cast hb.2
    rw [div_lt_one (by norm_num : (0 : ℚ) < 32768)]
    push_cast at hc
    linarith

theorem decode_pcm_mono_eq (bytes : List Nat) (sr : Nat)
    (hne : bytes ≠ []) (hev : bytes.length % 2 = 0) :
    decode_pcm bytes sr 1 = Except.ok (NDArray.flat (pcmSamples bytes), sr) := by
  have h0 : bytes.length ≠ 0 := fun h => hne (List.length_eq_zero.mp h)
  have hpc : (pcmInts bytes).length ≠ 0 := by
    rw [pcmInts_length]; omega
  unfold decode_pcm
  simp [h0, hev, hpc]

/-- C4: for every non-empty byte sequence of even length, decode_pcm with one
channel succeeds and returns sample_rate unchanged together with a flat sample
array of length len(bytes)/2 whose entries (int16 little-endian over 32768.0)
all lie in the interval [-1, 1). -/
theorem decode_pcm_mono_spec (bytes : List Nat) (sr : Nat)
    (hne : bytes ≠ []) (hev : bytes.length % 2 = 0) :
    decode_pcm bytes sr 1 = Except.ok (NDArray.flat (pcmSamples bytes), sr) ∧
    (pcmSamples bytes).length = bytes.length / 2 ∧
    ∀ q ∈ pcmSamples bytes, -1 ≤ q ∧ q < 1 :=
  ⟨decode_pcm_mono_eq bytes sr hne hev, pcmSamples_length bytes, pcmSamples_bounds bytes⟩

/-- Witness for C4 at the concrete two-byte input [0, 128] (the single sample
-32768, scaled to -1). -/
theorem decode_pcm_mono_spec_witness :
    (([0, 128] : List Nat) ≠ [] ∧ ([0, 128] : List Nat).length % 2 = 0) ∧
    (decode_pcm [0, 128] 44100 1 = Except.ok (NDArray.flat (pcmSamples [0, 128]), 44100) ∧
     (pcmSamples [0, 128]).length = ([0, 128] : List Nat).length / 2 ∧
     ∀ q ∈ pcmSamples [0, 128], -1 ≤ q ∧ q < 1) :=
  ⟨⟨by decide, by decide⟩, decode_pcm_mono_spec [0, 128] 44100 (by decide) (by decide)⟩

/-- C5: decode_pcm applied to the empty byte sequence raises ValueError
("Empty audio buffer"), whatever the sample rate and channel count passed. -/
theorem decode_pcm_empty (sr channels : Nat) :
    decode_pcm [] sr channels = Except.error (PyErr.valueError "Empty audio buffer") := rfl

/-! Facts about the window accumulator. -/

theorem ingest_below (buf chunk : List Nat) (h : (buf ++ chunk).length < TARGET_SIZE) :
    ingest buf chunk = (buf ++ chunk, none) := by
  simp only [ingest]
  rw [if_neg (not_le.mpr h)]

theorem ingest_full (buf chunk : List Nat) (h : TARGET_SIZE ≤ (buf ++ chunk).length) :
    ingest buf chunk = ([], some ((buf ++ chunk).take TARGET_SIZE)) := by
  simp only [ingest]
  rw [if_pos h]

theorem ingest_some (buf c buf2 w : List Nat) (h : ingest buf c = (buf2, some w)) :
    w.length = TARGET_SIZE ∧ buf2 = [] ∧ w = (buf ++ c).take TARGET_SIZE := by
  by_cases hc : TARGET_SIZE ≤ (buf ++ c).length
  · rw [ingest_full buf c hc] at h
    simp only [Prod.mk.injEq, Option.some.injEq] at h
    obtain ⟨h1, h2⟩ := h
    subst h1; subst h2
    refine ⟨?_, rfl, rfl⟩
    rw [List.length_take]
    omega
  · rw [ingest_below buf c (not_le.mp hc)] at h
    simp at h

theorem feedAll_nil_chunks : ∀ cs : List (List Nat), cs.flatten = [] →
    feedAll [] cs = ([], [])
  | [], _ => rfl
  | c :: cs, h => by
      have hc : c = [] ∧ cs.flatten = [] := by simpa using h
      obtain ⟨rfl, h2⟩ := hc
      simp only [feedAll, ingest_below [] [] (by decide)]
      exact feedAll_nil_chunks cs h2

theorem feedAll_exact : ∀ (cs : List (List Nat)) (buf : List Nat),
    buf.length < TARGET_SIZE → (buf ++ cs.flatten).length = TARGET_SIZE →
    feedAll buf cs = ([], [buf ++ cs.flatten])
  | [], buf, hb, ht => by
      exfalso
      simp only [List.flatten_nil, List.append_nil] at ht
      omega
  | c :: cs, buf, hb, ht => by
      have hlen : buf.length + c.length + cs.flatten.length = TARGET_SIZE := by
        rw [List.flatten_cons, List.length_append, List.length_append] at ht
        omega
      by_cases hfull : TARGET_SIZE ≤ (buf ++ c).length
      · have hbc : (buf ++ c).length = TARGET_SIZE := by
          rw [List.length_append]; rw [List.length_append] at hfull; omega
        have h2 : cs.flatten = [] := by
          rw [List.length_append] at hbc
          exact List.length_eq_zero.mp (by omega)
        have htake : (buf ++ c).take TARGET_SIZE = buf ++ c := by
          rw [← hbc]; exact List.take_length _
        simp only [feedAll, ingest_full buf c hfull, htake, feedAll_nil_chunks cs h2]
        simp [List.flatten_cons, h2]
      · have hb2 : (buf ++ c).length < TARGET_SIZE := not_le.mp hfull
        have ht2 : ((buf ++ c) ++ cs.flatten).length = TARGET_SIZE := by
          simp only [List.length_append]
          rw [List.length_append] at hb2
          omega
        simp only [feedAll, ingest_below buf c hb2]
        rw [feedAll_exact cs (buf ++ c) hb2 ht2]
        simp [List.flatten_cons]

/-! Step lemmas for the websocket receive loop. -/

theorem runLoop_cons_below (bt : TempoEstimator) (kx : KeyExtractor)
    (buf data : List Nat) (rest : List ClientMsg)
    (h : (buf ++ data).length < TARGET_SIZE) :
    runLoop bt kx buf (ClientMsg.binary data :: rest) = runLoop bt kx (buf ++ data) rest := by
  simp only [runLoop, stepMsg, ingest_below buf data h]
  cases hr : runLoop bt kx (buf ++ data) rest
  simp

theorem runLoop_cons_full (bt : TempoEstimator) (kx : KeyExtractor)
    (buf data : List Nat) (rest : List ClientMsg)
    (h : TARGET_SIZE ≤ (buf ++ data).length) :
    runLoop bt kx buf (ClientMsg.binary data :: rest) =
      (windowSend bt kx ((buf ++ data).take TARGET_SIZE) :: (runLoop bt kx [] rest).1,
       (runLoop bt kx [] rest).2) := by
  simp only [runLoop, stepMsg, ingest_full buf data h]
  cases hr : runLoop bt kx [] rest
  simp

theorem runLoop_stop (bt : TempoEstimator) (kx : KeyExtractor)
    (buf : List Nat) (s : String) (rest : List ClientMsg)
    (hs : pyLower (pyStrip s.data) = "stop".data) :
    runLoop bt kx buf (ClientMsg.text s :: rest) = ([stoppedSent], buf) := by
  simp [runLoop, stepMsg, hs]

theorem runLoop_nil_chunks (bt : TempoEstimator) (kx : KeyExtractor) :
    ∀ cs : List (List Nat), cs.flatten = [] →
      runLoop bt kx [] (cs.map ClientMsg.binary) = ([], [])
  | [], _ => rfl
  | c :: cs, h => by
      have hc : c = [] ∧ cs.flatten = [] := by simpa using h
      obtain ⟨rfl, h2⟩ := hc
      rw [List.map_cons, runLoop_cons_below bt kx [] [] _ (by decide)]
      exact runLoop_nil_chunks bt kx cs h2

theorem runLoop_under (bt : TempoEstimator) (kx : KeyExtractor) :
    ∀ (cs : List (List Nat)) (buf : List Nat),
      (buf ++ cs.flatten).length < TARGET_SIZE →
      runLoop bt kx buf (cs.map ClientMsg.binary) = ([], buf ++ cs.flatten)
  | [], buf, h => by simp [runLoop]
  | c :: cs, buf, h => by
      have hlen : buf.length + c.length + cs.flatten.length < TARGET_SIZE := by
        rw [List.flatten_cons, List.length_append, List.length_append] at h
        omega
      have h1 : (buf ++ c).length < TARGET_SIZE := by
        rw [List.length_append]; omega
      have h2 : ((buf ++ c) ++ cs.flatten).length < TARGET_SIZE := by
        simp only [List.length_append]
        rw [List.length_append] at h1
        omega
      rw [List.map_cons, runLoop_cons_below bt kx buf c _ h1,
        runLoop_under bt kx cs (buf ++ c) h2]
      simp [List.flatten_cons]

theorem runLoop_exact (bt : TempoEstimator) (kx : KeyExtractor) :
    ∀ (cs : List (List Nat)) (buf : List Nat),
      buf.length < TARGET_SIZE → (buf ++ cs.flatten).length = TARGET_SIZE →
      runLoop bt kx buf (cs.map ClientMsg.binary) =
        ([windowSend bt kx (buf ++ cs.flatten)], [])
  | [], buf, hb, ht => by
      exfalso
      simp only [List.flatten_nil, List.append_nil] at ht
      omega
  | c :: cs, buf, hb, ht => by
      have hlen : buf.length + c.length + cs.flatten.length = TARGET_SIZE := by
        rw [List.flatten_cons, List.length_append, List.length_append] at ht
        omega
      by_cases hfull : TARGET_SIZE ≤ (buf ++ c).length
      · have hbc : (buf ++ c).length = TARGET_SIZE := by
          rw [List.length_append]; rw [List.length_append] at hfull; omega
        have h2 : cs.flatten = [] := by
          rw [List.length_append] at hbc
          exact List.length_eq_zero.mp (by omega)
        have htake : (buf ++ c).take TARGET_SIZE = buf ++ c := by
          rw [← hbc]; exact List.take_length _
        rw [List.map_cons, runLoop_cons_full bt kx buf c _ hfull,
          runLoop_nil_chunks bt kx cs h2, htake]
        simp [List.flatten_cons, h2]
      · have hb2 : (buf ++ c).length < TARGET_SIZE := not_le.mp hfull
        have ht2 : ((buf ++ c) ++ cs.flatten).length = TARGET_SIZE := by
          simp only [List.length_append]
          rw [List.length_append] at hb2
          omega
        rw [List.map_cons, runLoop_cons_below bt kx buf c _ hb2,
          runLoop_exact bt kx cs (buf ++ c) hb2 ht2]
        simp [List.flatten_cons]

/-! Facts about the per-window analysis attempt. -/

theorem streamAnalysis_est_ok (bt : TempoEstimator) (kx : KeyExtractor)
    (w : List Nat) (t : ℚ) (k sc : String) (q : ℚ)
    (h2 : 2 ≤ w.length) (hev : w.length % 2 = 0)
    (hbt : bt (pcmSamples w) 44100 = Except.ok t)
    (hkx : kx (pcmSamples w) = Except.ok (k, sc, q)) :
    streamAnalysis bt kx w =
      Except.error (PyErr.valueError "Unknown format code 'f' for object of type 'str'") := by
  have hne : w ≠ [] := by
    intro h
    subst h
    simp at h2
  have hdec := decode_pcm_mono_eq w SAMPLE_RATE hne hev
  have hsl : ¬((pcmSamples w).length = 0) := by
    rw [pcmSamples_length]
    omega
  simp [streamAnalysis, CHANNELS, hdec, NDArray.flatSamples, hsl, find_bpm_call,
    find_bpm_body, detect_BPM, hbt, find_keysig_call, find_keysig_body, hkx, pyFormatF1]

theorem streamAnalysis_bt_err (bt : TempoEstimator) (kx : KeyExtractor)
    (w : List Nat) (e : PyErr)
    (h2 : 2 ≤ w.length) (hev : w.length % 2 = 0)
    (hbt : bt (pcmSamples w) 44100 = Except.error e) :
    streamAnalysis bt kx w = Except.error e := by
  have hne : w ≠ [] := by
    intro h
    subst h
    simp at h2
  have hdec := decode_pcm_mono_eq w SAMPLE_RATE hne hev
  have hsl : ¬((pcmSamples w).length = 0) := by
    rw [pcmSamples_length]
    omega
  simp [streamAnalysis, CHANNELS, hdec, NDArray.flatSamples, hsl, find_bpm_call,
    find_bpm_body, detect_BPM, hbt]

theorem windowSend_est_ok (bt : TempoEstimator) (kx : KeyExtractor)
    (w : List Nat) (t : ℚ) (k sc : String) (q : ℚ)
    (h2 : 2 ≤ w.length) (hev : w.length % 2 = 0)
    (hbt : bt (pcmSamples w) 44100 = Except.ok t)
    (hkx : kx (pcmSamples w) = Except.ok (k, sc, q)) :
    windowSend bt kx w = analysisErrorSent := by
  rw [windowSend, streamAnalysis_est_ok bt kx w t k sc q h2 hev hbt hkx]

theorem flatten_length_const (n : Nat) : ∀ cs : List (List Nat),
    (∀ c ∈ cs, c.length = n) → cs.flatten.length = cs.length * n
  | [], _ => by simp
  | c :: cs, h => by
      rw [List.flatten_cons, List.length_append, h c (by simp),
        flatten_length_const n cs (fun x hx => h x (by simp [hx])), List.length_cons]
      ring

/-! Claim theorems about the accumulator and the session state machine. -/

/-- C3: the accumulator only ever emits windows of exactly TARGET_SIZE bytes —
any emitted window is the first TARGET_SIZE bytes accumulated and the state is
cleared entirely — and any way of splitting a TARGET_SIZE-byte string into
chunks yields exactly one window whose content is that string. -/
theorem accumulator_window_spec (s : List Nat) (chunks : List (List Nat))
    (hlen : s.length = TARGET_SIZE) (hjoin : chunks.flatten = s) :
    feedAll [] chunks = ([], [s]) ∧
    ∀ buf c buf2 w, ingest buf c = (buf2, some w) →
      w.length = TARGET_SIZE ∧ buf2 = [] ∧ w = (buf ++ c).take TARGET_SIZE := by
  constructor
  · have := feedAll_exact chunks [] (by simp [TARGET_SIZE_eq]) (by simpa [hjoin])
    simpa [hjoin] using this
  · intro buf c buf2 w h
    exact ingest_some buf c buf2 w h

/-- Witness for C3: the 441000-byte all-zero string delivered as one chunk. -/
theorem accumulator_window_spec_witness :
    ((List.replicate 441000 0 : List Nat).length = TARGET_SIZE ∧
      ([List.replicate 441000 (0 : Nat)] : List (List Nat)).flatten = List.replicate 441000 0) ∧
    (feedAll [] [List.replicate 441000 (0 : Nat)] = ([], [List.replicate 441000 0]) ∧
     ∀ buf c buf2 w, ingest buf c = (buf2, some w) →
       w.length = TARGET_SIZE ∧ buf2 = [] ∧ w = (buf ++ c).take TARGET_SIZE) :=
  ⟨⟨by rw [List.length_replicate]; rfl,
      by rw [List.flatten_cons, List.flatten_nil, List.append_nil]⟩,
    accumulator_window_spec (List.replicate 441000 0) [List.replicate 441000 0]
      (by rw [List.length_replicate]; rfl)
      (by rw [List.flatten_cons, List.flatten_nil, List.append_nil])⟩

/-- C6: a text message whose stripped, lowercased content is "stop" makes the
session send exactly the single Stopped payload, ignore everything buffered
and every later message, end the loop, and close with code 1000. -/
theorem session_stop_spec (bt : TempoEstimator) (kx : KeyExtractor)
    (buf : List Nat) (s : String) (rest : List ClientMsg)
    (hs : pyLower (pyStrip s.data) = "stop".data) :
    runLoop bt kx buf (ClientMsg.text s :: rest) = ([stoppedSent], buf) ∧
    runSession bt kx (ClientMsg.text s :: rest) = ([stoppedSent], 1000) := by
  constructor
  · exact runLoop_stop bt kx buf s rest hs
  · rw [runSession, runLoop_stop bt kx [] s rest hs]

/-- Witness for C6: the text "STOP" sent before any chunk to a session with
concrete estimators. -/
theorem session_stop_spec_witness :
    (pyLower (pyStrip "STOP".data) = "stop".data) ∧
    (runLoop (fun _ _ => Except.ok 120) (fun _ => Except.ok ("C", "major", 1/2))
        [] (ClientMsg.text "STOP" :: []) = ([stoppedSent], []) ∧
     runSession (fun _ _ => Except.ok 120) (fun _ => Except.ok ("C", "major", 1/2))
        (ClientMsg.text "STOP" :: []) = ([stoppedSent], 1000)) :=
  ⟨by decide,
    session_stop_spec (fun _ _ => Except.ok 120) (fun _ => Except.ok ("C", "major", 1/2))
      [] "STOP" [] (by decide)⟩

/-- C7: when the chunk completes a window and processing that window raises
any exception, the session sends exactly one Error payload (bpm "Unknown",
key "Unknown", status "Error") for it and keeps receiving the remaining
messages from a cleared buffer — it does not terminate. -/
theorem session_error_recovery (bt : TempoEstimator) (kx : KeyExtractor)
    (buf data : List Nat) (rest : List ClientMsg) (e : PyErr)
    (hfull : TARGET_SIZE ≤ (buf ++ data).length)
    (herr : streamAnalysis bt kx ((buf ++ data).take TARGET_SIZE) = Except.error e) :
    runLoop bt kx buf (ClientMsg.binary data :: rest) =
      (analysisErrorSent :: (runLoop bt kx [] rest).1, (runLoop bt kx [] rest).2) := by
  rw [runLoop_cons_full bt kx buf data rest hfull]
  rw [windowSend, herr]

/-- Witness for C7: a window-completing chunk of 441000 zero bytes with a
tempo estimator that raises, followed by no further messages. -/
theorem session_error_recovery_witness :
    (TARGET_SIZE ≤ (([] : List Nat) ++ List.replicate 441000 0).length ∧
     streamAnalysis (fun _ _ => Except.error (PyErr.valueError "boom"))
        (fun _ => Except.ok ("C", "major", 1/2))
        ((([] : List Nat) ++ List.replicate 441000 0).take TARGET_SIZE) =
       Except.error (PyErr.valueError "boom")) ∧
    runLoop (fun _ _ => Except.error (PyErr.valueError "boom"))
        (fun _ => Except.ok ("C", "major", 1/2))
        [] (ClientMsg.binary (List.replicate 441000 0) :: []) =
      (analysisErrorSent ::
        (runLoop (fun _ _ => Except.error (PyErr.valueError "boom"))
          (fun _ => Except.ok ("C", "major", 1/2)) [] []).1,
       (runLoop (fun _ _ => Except.error (PyErr.valueError "boom"))
          (fun _ => Except.ok ("C", "major", 1/2)) [] []).2) := by
  have h1 : TARGET_SIZE ≤ (([] : List Nat) ++ List.replicate 441000 0).length := by
    rw [List.nil_append, List.length_replicate]
    decide
  have ht : (([] : List Nat) ++ List.replicate 441000 0).take TARGET_SIZE =
      List.replicate 441000 (0 : Nat) := by
    rw [List.nil_append, List.take_replicate, TARGET_SIZE_eq, Nat.min_self]
  have h2 : streamAnalysis (fun _ _ => Except.error (PyErr.valueError "boom"))
      (fun _ => Except.ok ("C", "major", 1/2))
      ((([] : List Nat) ++ List.replicate 441000 0).take TARGET_SIZE) =
      Except.error (PyErr.valueError "boom") := by
    rw [ht]
    exact streamAnalysis_bt_err _ _ _ _
      (by rw [List.length_replicate]; decide) (by rw [List.length_replicate]) rfl
  exact ⟨⟨h1, h2⟩,
    session_error_recovery (fun _ _ => Except.error (PyErr.valueError "boom"))
      (fun _ => Except.ok ("C", "major", 1/2)) [] (List.replicate 441000 0) []
      (PyErr.valueError "boom") h1 h2⟩

/-- C9: after the handler finishes one incoming binary message the buffer is
strictly below TARGET_SIZE, and whenever the chunk completed a window the
buffer is cleared to empty — for every behaviour of the estimators, including
raising ones, since the clear is outside the try/except. -/
theorem buffer_invariant_spec (bt : TempoEstimator) (kx : KeyExtractor)
    (buf data : List Nat) :
    ((stepMsg bt kx buf (ClientMsg.binary data)).1).length < TARGET_SIZE ∧
    (stepMsg bt kx buf (ClientMsg.binary data)).1 =
      (if TARGET_SIZE ≤ (buf ++ data).length then [] else buf ++ data) := by
  by_cases h : TARGET_SIZE ≤ (buf ++ data).length
  · refine ⟨?_, ?_⟩
    · simp only [stepMsg, ingest_full buf data h, List.length_nil]
      decide
    · simp only [stepMsg, ingest_full buf data h, if_pos h]
  · have h2 : (buf ++ data).length < TARGET_SIZE := not_le.mp h
    refine ⟨?_, ?_⟩
    · simpa only [stepMsg, ingest_below buf data h2] using h2
    · simp only [stepMsg, ingest_below buf data h2, if_neg h]

/-- C1 (documents the divergence): streaming 10 binary chunks of 44100 bytes
each, with both estimators succeeding on the accumulated window, produces no
output for the first 9 chunks, and after the 10th exactly one payload — but it
is the Error payload (bpm "Unknown", key "Unknown", status "Error"), never a
Detected one, because find_keysig already rendered strength as a str and the
f-string's ".1f" spec on a str raises ValueError inside the try. -/
theorem session_ten_chunk_result (bt : TempoEstimator) (kx : KeyExtractor)
    (chunks : List (List Nat)) (t : ℚ) (k sc : String) (q : ℚ)
    (hn : chunks.length = 10)
    (hc : ∀ c ∈ chunks, c.length = 44100)
    (hbt : bt (pcmSamples chunks.flatten) 44100 = Except.ok t)
    (hkx : kx (pcmSamples chunks.flatten) = Except.ok (k, sc, q)) :
    (runLoop bt kx [] (chunks.map ClientMsg.binary)).1 = [analysisErrorSent] ∧
    ∀ j, j < 10 → (runLoop bt kx [] ((chunks.take j).map ClientMsg.binary)).1 = [] := by
  have hflat : chunks.flatten.length = 441000 := by
    rw [flatten_length_const 44100 chunks hc, hn]
  constructor
  · have hex := runLoop_exact bt kx chunks []
      (by rw [List.length_nil]; decide)
      (by rw [List.nil_append, hflat]; rfl)
    rw [hex]
    simp only [List.nil_append]
    rw [windowSend_est_ok bt kx chunks.flatten t k sc q (by omega) (by omega) hbt hkx]
  · intro j hj
    have hsub : ∀ c ∈ chunks.take j, c.length = 44100 :=
      fun c hcm => hc c (List.take_subset j chunks hcm)
    have hlt : ((chunks.take j).flatten).length < TARGET_SIZE := by
      rw [flatten_length_const 44100 _ hsub, List.length_take, hn, TARGET_SIZE_eq]
      have hm : min j 10 ≤ 9 := by omega
      omega
    rw [runLoop_under bt kx (chunks.take j) [] (by rw [List.nil_append]; exact hlt)]

/-- Witness for C1: ten 44100-byte all-zero chunks with estimators that
succeed (tempo 120, key C major at strength 0.825). -/
theorem session_ten_chunk_result_witness :
    ((List.replicate 10 (List.replicate 44100 (0 : Nat))).length = 10 ∧
     (∀ c ∈ List.replicate 10 (List.replicate 44100 (0 : Nat)), c.length = 44100) ∧
     ((fun _ _ => Except.ok (120 : ℚ)) : TempoEstimator)
        (pcmSamples (List.replicate 10 (List.replicate 44100 (0 : Nat))).flatten) 44100 =
       Except.ok (120 : ℚ) ∧
     ((fun _ => Except.ok ("C", "major", (825 : ℚ)/1000)) : KeyExtractor)
        (pcmSamples (List.replicate 10 (List.replicate 44100 (0 : Nat))).flatten) =
       Except.ok ("C", "major", (825 : ℚ)/1000)) ∧
    ((runLoop (fun _ _ => Except.ok (120 : ℚ))
        (fun _ => Except.ok ("C", "major", (825 : ℚ)/1000)) []
        ((List.replicate 10 (List.replicate 44100 (0 : Nat))).map ClientMsg.binary)).1 =
       [analysisErrorSent] ∧
     ∀ j, j < 10 →
       (runLoop (fun _ _ => Except.ok (120 : ℚ))
          (fun _ => Except.ok ("C", "major", (825 : ℚ)/1000)) []
          (((List.replicate 10 (List.replicate 44100 (0 : Nat))).take j).map
            ClientMsg.binary)).1 = []) := by
  have hn : (List.replicate 10 (List.replicate 44100 (0 : Nat))).length = 10 := by
    rw [List.length_replicate]
  have hc : ∀ c ∈ List.replicate 10 (List.replicate 44100 (0 : Nat)), c.length = 44100 := by
    intro c hcm
    rw [List.eq_of_mem_replicate hcm, List.length_replicate]
  exact ⟨⟨hn, hc, rfl, rfl⟩,
    session_ten_chunk_result (fun _ _ => Except.ok (120 : ℚ))
      (fun _ => Except.ok ("C", "major", (825 : ℚ)/1000))
      (List.replicate 10 (List.replicate 44100 (0 : Nat)))
      120 "C" "major" ((825 : ℚ)/1000) hn hc rfl rfl⟩

/-- C8: a request whose x-api-key header is absent or differs from the secret
is answered with HTTPException 403 "Unauthorized" and the uploaded file is
never read; and the dependency raises nothing for the matching key. -/
theorem auth_spec (bt : TempoEstimator) (kx : KeyExtractor) (sfRead : SfRead)
    (key : Option String) (file : List Nat)
    (hk : key ≠ some API_KEY) :
    analyze_audio bt kx sfRead key file =
      (Response.httpException 403 "Unauthorized", false) ∧
    verify_api_key (some API_KEY) = Except.ok () := by
  constructor
  · simp [analyze_audio, verify_api_key, hk]
  · simp [verify_api_key]

/-- Witness for C8: a request with no x-api-key header at all. -/
theorem auth_spec_witness :
    ((none : Option String) ≠ some API_KEY) ∧
    (analyze_audio (fun _ _ => Except.ok (120 : ℚ))
        (fun _ => Except.ok ("C", "major", 1/2)) (fun _ => Except.ok ([0], 44100))
        none [] = (Response.httpException 403 "Unauthorized", false) ∧
     verify_api_key (some API_KEY) = Except.ok ()) :=
  ⟨by simp,
    auth_spec (fun _ _ => Except.ok (120 : ℚ)) (fun _ => Except.ok ("C", "major", 1/2))
      (fun _ => Except.ok ([0], 44100)) none [] (by simp)⟩

/-- C2 (documents the divergence): an authorized one-shot request whose upload
decodes to a non-empty audio signal is answered with status 500 and the
{"error": ...} body carrying the TypeError message, because analyze_audio
calls find_bpm(y, sr) with two positional arguments while find_bpm takes one;
the Detected success dict is never returned. -/
theorem oneShot_typeerror (bt : TempoEstimator) (kx : KeyExtractor) (sfRead : SfRead)
    (key : Option String) (file : List Nat) (y : List ℚ) (sr : Nat)
    (hk : key = some API_KEY)
    (hread : sfRead file = Except.ok (y, sr)) (hy : y ≠ []) :
    analyze_audio bt kx sfRead key file =
      (Response.jsonError 500 (arityMsg "find_bpm()" 2), true) := by
  subst hk
  simp [analyze_audio, verify_api_key, analyzeBody, hread, find_bpm_call, PyErr.message]

/-- Witness for C2: the correct key together with a reader that decodes the
upload to the one-sample signal [0] at 44100 Hz. -/
theorem oneShot_typeerror_witness :
    ((some API_KEY : Option String) = some API_KEY ∧
     ((fun _ => Except.ok (([0], 44100) : List ℚ × Nat)) : SfRead) [] =
       Except.ok (([0] : List ℚ), 44100) ∧
     ([0] : List ℚ) ≠ []) ∧
    analyze_audio (fun _ _ => Except.ok (120 : ℚ))
        (fun _ => Except.ok ("C", "major", 1/2))
        (fun _ => Except.ok (([0], 44100) : List ℚ × Nat)) (some API_KEY) [] =
      (Response.jsonError 500 (arityMsg "find_bpm()" 2), true) :=
  ⟨⟨rfl, rfl, by simp⟩,
    oneShot_typeerror (fun _ _ => Except.ok (120 : ℚ))
      (fun _ => Except.ok ("C", "major", 1/2))
      (fun _ => Except.ok (([0], 44100) : List ℚ × Nat)) (some API_KEY) [] [0] 44100
      rfl rfl (by simp)⟩

/-- C10: Music_Anaylizer.find_bpm has exactly one parameter: a single-argument
call runs the tempo estimator with the hardcoded sample rate 44100 and formats
with three decimals; any call with a second positional argument raises
TypeError; and the result for a clip is the same whatever the clip's actual
source sample rate is. -/
theorem find_bpm_arity_spec (bt : TempoEstimator) (a : List ℚ) (x : PyArg)
    (extra : List PyArg) (sr1 sr2 : Nat) :
    find_bpm_call bt [PyArg.audio a] =
      Except.map (fun t => formatFixed t 3) (bt a 44100) ∧
    find_bpm_call bt (PyArg.audio a :: x :: extra) =
      Except.error (PyErr.typeError (arityMsg "find_bpm()" (extra.length + 2))) ∧
    bpmOfMaterial bt a sr1 = bpmOfMaterial bt a sr2 := by
  refine ⟨?_, ?_, rfl⟩
  · cases h : bt a 44100 <;>
      simp [find_bpm_call, find_bpm_body, detect_BPM, h, Except.map]
  · cases x <;> simp [find_bpm_call]
